import Mathlib

/-
  Verification of the quarantine life-simulation core against its spec.

  The repository contains several divergent copies of the simulation logic.
  This development embeds the two store variants the claims cite:
  - the frontend store in src/frontend/src/utils/gameStore.ts
    (second copy in the file, the one with localStorage sync);
    definitions carry the suffix GS;
  - the standalone mock store in src/unnamed/part_002; suffix P2.
  The simplified demo in src/unnamed/part_003 shares its effect table and
  stat arithmetic verbatim with the part_002 store.

  JavaScript numbers are embedded as Int: every stat constant and delta in
  the source is an integer literal, and the claims concern ordering and
  clamping only.
-/

/-- The five character stats (interface Stats in both stores). -/
structure Stats where
  hunger : Int
  stress : Int
  tone   : Int
  health : Int
  money  : Int
deriving DecidableEq, Repr

/-- A partial stat-delta mapping (Partial Stats in the source); a field
that is none corresponds to an absent key, meaning a zero delta. -/
structure ActivityEffect where
  hunger : Option Int := none
  stress : Option Int := none
  tone   : Option Int := none
  health : Option Int := none
  money  : Option Int := none
deriving DecidableEq, Repr

/-- clamp from the source: Math.max(min, Math.min(value, max)). -/
def clamp (value lo hi : Int) : Int :=
  max lo (min value hi)

/-- Activity effect table of gameStore.ts. The water_flower entry is
commented out in that file, so lookup of water_flower yields none. -/
def activityEffectsGS : String → Option ActivityEffect
  | "work"        => some { hunger := some (-5), stress := some 5, tone := some (-5), money := some 10 }
  | "sleep"       => some { stress := some (-8), tone := some 10, health := some 2 }
  | "eat_fast"    => some { hunger := some 50, stress := some (-2), tone := some (-2), health := some (-10), money := some (-5) }
  | "eat_healthy" => some { hunger := some 30, stress := some (-1), health := some 5, money := some (-15) }
  | "tv"          => some { hunger := some (-1), stress := some (-10), tone := some (-5) }
  | "games"       => some { hunger := some (-1), stress := some (-15), tone := some (-10), health := some (-5) }
  | "read"        => some { hunger := some (-1), stress := some (-8), tone := some (-5), health := some 2 }
  | "exercise"    => some { hunger := some (-2), stress := some (-5), tone := some 5, health := some 3 }
  | "meditate"    => some { stress := some (-10), tone := some 2, health := some 1 }
  | "idle"        => some { hunger := some (-2), stress := some 1, tone := some (-1) }
  | _             => none

/-- Activity effect table of the part_002 store (textually identical in
part_003); unlike gameStore.ts it defines water_flower. -/
def activityEffectsP2 : String → Option ActivityEffect
  | "work"         => some { hunger := some (-5), stress := some 5, tone := some (-5), money := some 10 }
  | "sleep"        => some { stress := some (-8), tone := some 10, health := some 2 }
  | "eat_fast"     => some { hunger := some 50, stress := some (-2), tone := some (-2), health := some (-10), money := some (-5) }
  | "eat_healthy"  => some { hunger := some 30, stress := some (-1), health := some 5, money := some (-15) }
  | "tv"           => some { hunger := some (-1), stress := some (-10), tone := some (-5) }
  | "games"        => some { hunger := some (-1), stress := some (-15), tone := some (-10), health := some (-5) }
  | "read"         => some { hunger := some (-1), stress := some (-8), tone := some (-5), health := some 2 }
  | "water_flower" => some { stress := some (-5), health := some 1 }
  | "exercise"     => some { hunger := some (-2), stress := some (-5), tone := some 5, health := some 3 }
  | "meditate"     => some { stress := some (-10), tone := some 2, health := some 1 }
  | "idle"         => some { hunger := some (-2), stress := some 1, tone := some (-1) }
  | _              => none

/-- Stat arithmetic of applyActivityEffects in gameStore.ts: the four
bounded stats are clamped to [0,100]; money is old + delta with NO floor
(the source comments that money has no upper bound and applies no lower
bound either). -/
def applyEffectsStatsGS (s : Stats) (effects : ActivityEffect) : Stats :=
  { hunger := clamp (s.hunger + effects.hunger.getD 0) 0 100
    stress := clamp (s.stress + effects.stress.getD 0) 0 100
    tone   := clamp (s.tone + effects.tone.getD 0) 0 100
    health := clamp (s.health + effects.health.getD 0) 0 100
    money  := s.money + effects.money.getD 0 }

/-- Stat arithmetic of applyActivityEffects in the part_002 store (and of
the part_003 demo): bounded stats clamped to [0,100], money floored at 0
via Math.max(0, ...). -/
def applyEffectsStatsP2 (s : Stats) (effects : ActivityEffect) : Stats :=
  { hunger := clamp (s.hunger + effects.hunger.getD 0) 0 100
    stress := clamp (s.stress + effects.stress.getD 0) 0 100
    tone   := clamp (s.tone + effects.tone.getD 0) 0 100
    health := clamp (s.health + effects.health.getD 0) 0 100
    money  := max 0 (s.money + effects.money.getD 0) }

/-- One gameStore.ts activity application restricted to the stats record:
unknown ids leave the stats unchanged (the applier returns after warning). -/
def applyActivityStatsGS (s : Stats) (activityId : String) : Stats :=
  match activityEffectsGS activityId with
  | none => s
  | some effects => applyEffectsStatsGS s effects

/-- One part_002 activity application restricted to the stats record:
unknown ids leave the stats unchanged (the applier returns after warning). -/
def applyActivityStatsP2 (s : Stats) (activityId : String) : Stats :=
  match activityEffectsP2 activityId with
  | none => s
  | some effects => applyEffectsStatsP2 s effects

/-- Per-field update used by applyStatChanges in both stores: a field is
touched only when the change defines it, and then it is clamped to
[0,100]. -/
def applyOptClamped (old : Int) (delta : Option Int) : Int :=
  match delta with
  | some v => clamp (old + v) 0 100
  | none => old

/-- applyStatChanges of gameStore.ts restricted to the stats record:
present bounded fields are clamped, a present money delta is added with
no floor, absent fields are untouched. -/
def applyStatChangesStatsGS (s : Stats) (changes : ActivityEffect) : Stats :=
  { hunger := applyOptClamped s.hunger changes.hunger
    stress := applyOptClamped s.stress changes.stress
    tone   := applyOptClamped s.tone changes.tone
    health := applyOptClamped s.health changes.health
    money  := match changes.money with
              | some v => s.money + v
              | none => s.money }

/-- applyStatChanges of the part_002 store restricted to the stats record:
present bounded fields are clamped, a present money delta is floored at 0,
absent fields are untouched. -/
def applyStatChangesStatsP2 (s : Stats) (changes : ActivityEffect) : Stats :=
  { hunger := applyOptClamped s.hunger changes.hunger
    stress := applyOptClamped s.stress changes.stress
    tone   := applyOptClamped s.tone changes.tone
    health := applyOptClamped s.health changes.health
    money  := match changes.money with
              | some v => max 0 (s.money + v)
              | none => s.money }

/-- Game-over check of the part_002 store, as computed inside both
applyActivityEffects and applyStatChanges there: health first, then
hunger, never stress; the pair is (isGameOver, gameOverReason). -/
def gameOverP2 (s : Stats) : Bool × String :=
  if s.health ≤ 0 then (true, "Your health reached zero. Game over!")
  else if s.hunger ≤ 0 then (true, "You starved to death. Game over!")
  else (false, "")

/-- Game time (day, hour) as in both stores. -/
structure GameTime where
  day : Int
  hour : Int
deriving DecidableEq, Repr

/-- The time advance computed identically by the gameStore.ts tick and by
advanceTime in part_002: nextHour = hour + 1, and when it reaches 24 it
wraps to 0 with the day incremented. -/
def nextGameTime (t : GameTime) : GameTime :=
  if 24 ≤ t.hour + 1 then { day := t.day + 1, hour := 0 }
  else { day := t.day, hour := t.hour + 1 }

/-- Reading dailySchedule[h]?.activityId in JS: an out-of-range index
yields undefined and a null slot value yields null, both embedded as
none; a present string activityId is some. -/
def slotAt (sched : List (Option String)) (h : Int) : Option String :=
  if 0 ≤ h then sched.getD h.toNat none else none

/-- The idle fallback both steps apply to the looked-up slot value: null
or undefined fall back to idle (the ?? in gameStore.ts, the falsy branch
in part_002), and so does the empty string (the || in gameStore.ts, JS
truthiness in part_002). -/
def resolveSlot : Option String → String
  | none => "idle"
  | some a => if a = "" then "idle" else a

/-- Audio settings of gameStore.ts. -/
structure AudioSettingsGS where
  muted : Bool
  bgmVolume : ℚ
  sfxVolume : ℚ
deriving DecidableEq, Repr

/-- Audio settings of the part_002 store. -/
structure AudioSettingsP2 where
  bgmVolume : ℚ
  sfxVolume : ℚ
  isMuted : Bool
deriving DecidableEq, Repr

/-- The gameStore.ts state tuple (fields the simulation logic touches or
reads; gameSpeed and isLoading are carried for completeness). -/
structure GameStateGS where
  stats : Stats
  gameTime : GameTime
  currentActivityId : String
  dailySchedule : List (Option String)
  isGameRunning : Bool
  isLoading : Bool
  intervalId : Option Int
  isGameOver : Bool
  gameOverReason : Option String
  audioSettings : AudioSettingsGS
deriving DecidableEq, Repr

/-- The part_002 store state tuple. -/
structure GameStateP2 where
  stats : Stats
  gameTime : GameTime
  isLoading : Bool
  isGameRunning : Bool
  isGameOver : Bool
  gameOverReason : String
  dailySchedule : List (Option String)
  audioSettings : AudioSettingsP2
deriving DecidableEq, Repr

/-- pauseGameLoop of gameStore.ts: with a live interval it clears it and
stops the loop; otherwise it does nothing. -/
def pauseGameLoopGS (st : GameStateGS) : GameStateGS :=
  match st.intervalId with
  | some _ => { st with intervalId := none, isGameRunning := false }
  | none => st

/-- The known-activity branch of applyActivityEffects in gameStore.ts:
compute the new stats, and only when the new stress reaches 100 declare
game over with the burnout reason (pausing the loop); otherwise only the
stats change. -/
def applyEffectsGS (st : GameStateGS) (effects : ActivityEffect) : GameStateGS :=
  let newStats := applyEffectsStatsGS st.stats effects
  if 100 ≤ newStats.stress then
    let paused := pauseGameLoopGS st
    { paused with
      stats := newStats
      isGameOver := true
      gameOverReason := some "Burnout! Stress reached 100." }
  else { st with stats := newStats }

/-- applyActivityEffects of gameStore.ts on the full state; the Bool
records whether the console warning for an unknown activity id fired
(in which case the state is returned unchanged). -/
def applyActivityEffectsGS (st : GameStateGS) (activityId : String) : GameStateGS × Bool :=
  match activityEffectsGS activityId with
  | none => (st, true)
  | some effects => (applyEffectsGS st effects, false)

/-- applyActivityEffects of the part_002 store on the full state; the Bool
records whether the unknown-activity warning fired. On a known id the new
stats are computed and the game-over flag and reason are recomputed from
them (health, then hunger). -/
def applyActivityEffectsP2 (st : GameStateP2) (activityId : String) : GameStateP2 × Bool :=
  match activityEffectsP2 activityId with
  | none => (st, true)
  | some effects =>
    let newStats := applyEffectsStatsP2 st.stats effects
    let go := gameOverP2 newStats
    ({ st with
       stats := newStats
       isGameOver := go.1
       gameOverReason := go.2 }, false)

/-- The interval-tick body of startGameLoop in gameStore.ts: compute the
next hour and day, resolve the activity scheduled for the hour being
entered (null, a missing slot, or an empty string fall back to idle),
apply its effects, then commit the new gameTime and currentActivityId.
The Bool is the unknown-activity warning flag. -/
def tickGS (st : GameStateGS) : GameStateGS × Bool :=
  let t := nextGameTime st.gameTime
  let nextActivityId := resolveSlot (slotAt st.dailySchedule t.hour)
  let applied := applyActivityEffectsGS st nextActivityId
  ({ applied.1 with gameTime := t, currentActivityId := nextActivityId }, applied.2)

/-- advanceTime of the part_002 store: first commit the advanced gameTime,
then look up the schedule slot of the new current hour and apply its
activity, falling back to idle when the slot is falsy (null, missing, or
an empty string). The Bool is the unknown-activity warning flag. -/
def advanceTimeP2 (st : GameStateP2) : GameStateP2 × Bool :=
  let t := nextGameTime st.gameTime
  let advanced : GameStateP2 := { st with gameTime := t }
  applyActivityEffectsP2 advanced
    (resolveSlot (slotAt advanced.dailySchedule advanced.gameTime.hour))

/-- Initial stats shared by every variant. -/
def initialStats : Stats :=
  { hunger := 70, stress := 20, tone := 80, health := 90, money := 50 }

/-- Initial 24-slot schedule of gameStore.ts: every slot set to idle. -/
def initialScheduleGS : List (Option String) :=
  List.replicate 24 (some "idle")

/-- Initial 24-slot schedule of the part_002 store: every slot null. -/
def initialScheduleP2 : List (Option String) :=
  List.replicate 24 none

/-- Modelled from the spec: the Game-Over Policy of section 4.4, three
independent triggers evaluated in fixed priority order, health then
hunger then stress, reporting the first that fires; none of the
divergent code copies implements all three, so this follows the words of
the spec for comparison. -/
def specGameOverPolicy (s : Stats) : Option String :=
  if s.health ≤ 0 then some "health reached zero"
  else if s.hunger ≤ 0 then some "starvation"
  else if 100 ≤ s.stress then some "burnout"
  else none

/-- Total per-stat delta of an effect, with absent keys meaning a zero
delta, reusing the Stats record to hold the five deltas. -/
def effectDelta (e : ActivityEffect) : Stats :=
  { hunger := e.hunger.getD 0
    stress := e.stress.getD 0
    tone   := e.tone.getD 0
    health := e.health.getD 0
    money  := e.money.getD 0 }

/-- Modelled from the spec: the canonical Activity Effect Table of
section 4.2, written as total delta rows in the order hunger, stress,
tone, health, money. -/
def specEffectTable : String → Option Stats
  | "work"         => some { hunger := -5, stress := 5, tone := -5, health := 0, money := 10 }
  | "sleep"        => some { hunger := 0, stress := -8, tone := 10, health := 2, money := 0 }
  | "eat_fast"     => some { hunger := 50, stress := -2, tone := -2, health := -10, money := -5 }
  | "eat_healthy"  => some { hunger := 30, stress := -1, tone := 0, health := 5, money := -15 }
  | "tv"           => some { hunger := -1, stress := -10, tone := -5, health := 0, money := 0 }
  | "games"        => some { hunger := -1, stress := -15, tone := -10, health := -5, money := 0 }
  | "read"         => some { hunger := -1, stress := -8, tone := -5, health := 2, money := 0 }
  | "water_flower" => some { hunger := 0, stress := -5, tone := 0, health := 1, money := 0 }
  | "exercise"     => some { hunger := -2, stress := -5, tone := 5, health := 3, money := 0 }
  | "meditate"     => some { hunger := 0, stress := -10, tone := 2, health := 1, money := 0 }
  | "idle"         => some { hunger := -2, stress := 1, tone := -1, health := 0, money := 0 }
  | _              => none

/-- The eleven activity ids of the canonical table. -/
def canonicalActivityIds : List String :=
  ["work", "sleep", "eat_fast", "eat_healthy", "tv", "games", "read",
   "water_flower", "exercise", "meditate", "idle"]

/-- The four bounded stats lie within [0,100]; money is unconstrained
here (its contract is separate). -/
def statsInRange (s : Stats) : Prop :=
  0 ≤ s.hunger ∧ s.hunger ≤ 100 ∧ 0 ≤ s.stress ∧ s.stress ≤ 100 ∧
  0 ≤ s.tone ∧ s.tone ≤ 100 ∧ 0 ≤ s.health ∧ s.health ≤ 100

instance (s : Stats) : Decidable (statsInRange s) := by
  unfold statsInRange
  infer_instance

/-- Parsed JSON values, for the persistence model: what JSON.parse can
hand back to the schedule loaders. -/
inductive JVal where
  | jnull : JVal
  | jbool : Bool → JVal
  | jnum : Int → JVal
  | jstr : String → JVal
  | jarr : List JVal → JVal
  | jobj : List (String × JVal) → JVal

/-- The slot validation of loadScheduleFromLocalStorage in gameStore.ts:
typeof slot is object, slot is not null, and the activityId key is
present. An array has typeof object but lacks the key, so only objects
carrying the key pass. -/
def isSlotShape : JVal → Bool
  | JVal.jobj fields => fields.any (fun kv => kv.1 == "activityId")
  | _ => false

/-- The full schedule validation of loadScheduleFromLocalStorage in
gameStore.ts: an array of exactly 24 slot-shaped entries. -/
def validScheduleShape : JVal → Bool
  | JVal.jarr xs => xs.length == 24 && xs.all isSlotShape
  | _ => false

/-- loadScheduleFromLocalStorage of gameStore.ts over an already-parsed
stored value (none models an absent key or a parse failure caught by the
try block): returns the schedule only when it is an array of 24
slot-shaped entries, otherwise null. -/
def loadScheduleFromLocalStorageGS (stored : Option JVal) : Option (List JVal) :=
  match stored with
  | some (JVal.jarr xs) => if xs.length == 24 && xs.all isSlotShape then some xs else none
  | _ => none

/-- The 24-slot default-idle schedule of gameStore.ts at the JSON level. -/
def initialScheduleJ : List JVal :=
  List.replicate 24 (JVal.jobj [("activityId", JVal.jstr "idle")])

/-- The schedule the gameStore.ts store starts from, via
loadScheduleFromLocalStorage() with the default as fallback. -/
def scheduleFromStorageGS (stored : Option JVal) : List JVal :=
  (loadScheduleFromLocalStorageGS stored).getD initialScheduleJ

/-- JavaScript truthiness of a parsed JSON value. -/
def jTruthy : JVal → Bool
  | JVal.jnull => false
  | JVal.jbool b => b
  | JVal.jnum n => n != 0
  | JVal.jstr s => s != ""
  | JVal.jarr _ => true
  | JVal.jobj _ => true

/-- loadDailyScheduleFromLocalStorage of the part_002 store over an
already-parsed stored value: it performs no validation at all and merely
returns the parsed value, or null when nothing was stored or parsing
threw. -/
def loadDailyScheduleFromLocalStorageP2 (stored : Option JVal) : JVal :=
  match stored with
  | some v => v
  | none => JVal.jnull

/-- The 24-slot all-null default schedule of the part_002 store at the
JSON level. -/
def defaultScheduleJP2 : JVal :=
  JVal.jarr (List.replicate 24 (JVal.jobj [("activityId", JVal.jnull)]))

/-- The schedule the part_002 store starts from: the loaded value when it
is truthy, otherwise the all-null default. -/
def scheduleFromStorageP2 (stored : Option JVal) : JVal :=
  let loaded := loadDailyScheduleFromLocalStorageP2 stored
  if jTruthy loaded then loaded else defaultScheduleJP2

/-- The TimelineSidebar component state starts from 24 slots of idle. -/
def tsInitialSchedule : List (Option String) :=
  List.replicate 24 (some "idle")

/-- What a React functional state update can evaluate to in
TimelineSidebar.handleDragEnd: either a schedule array, or the
timeout-cleanup closure that the handler actually returns. -/
inductive SchedUpdateResult where
  | sched : List (Option String) → SchedUpdateResult
  | cleanupFn : SchedUpdateResult
deriving DecidableEq, Repr

/-- The functional update passed to setSchedule by handleDragEnd in
TimelineSidebar.tsx: it builds newSchedule with the slot replaced when
the hour is in bounds, saves it, schedules a debounced backend save, and
then returns the cleanup closure; the trailing return of newSchedule is
unreachable, so the new component state is the closure, not the array. -/
def handleDragEndUpdate (hour : Int) (activityId : String)
    (currentSchedule : List (Option String)) : SchedUpdateResult :=
  let newSchedule :=
    if 0 ≤ hour ∧ hour < currentSchedule.length then
      currentSchedule.set hour.toNat (some activityId)
    else currentSchedule
  SchedUpdateResult.cleanupFn

/-- The value of newSchedule that the unreachable trailing return of
handleDragEnd would have produced. -/
def handleDragEndIntended (hour : Int) (activityId : String)
    (currentSchedule : List (Option String)) : List (Option String) :=
  if 0 ≤ hour ∧ hour < currentSchedule.length then
    currentSchedule.set hour.toNat (some activityId)
  else currentSchedule

/-- Convenience builder for gameStore.ts states; the fields not under
test take the initial values of that store. -/
def mkStateGS (s : Stats) (t : GameTime) (sched : List (Option String))
    (go : Bool) (reason : Option String) : GameStateGS :=
  { stats := s
    gameTime := t
    currentActivityId := "idle"
    dailySchedule := sched
    isGameRunning := true
    isLoading := false
    intervalId := some 1
    isGameOver := go
    gameOverReason := reason
    audioSettings := { muted := false, bgmVolume := 0.4, sfxVolume := 0.6 } }

/-- Convenience builder for part_002 states; the fields not under test
take the initial values of that store. -/
def mkStateP2 (s : Stats) (t : GameTime) (sched : List (Option String))
    (go : Bool) (reason : String) : GameStateP2 :=
  { stats := s
    gameTime := t
    isLoading := false
    isGameRunning := true
    isGameOver := go
    gameOverReason := reason
    dailySchedule := sched
    audioSettings := { bgmVolume := 0.5, sfxVolume := 0.5, isMuted := false } }

/-- A running part_002 state one work hour away from stress 100. -/
def c1InputP2 : GameStateP2 :=
  mkStateP2 { hunger := 50, stress := 95, tone := 50, health := 50, money := 50 }
    { day := 1, hour := 0 } initialScheduleP2 false ""

/-- A running gameStore.ts state one fast-food order away from health 0. -/
def c1InputGS : GameStateGS :=
  mkStateGS { hunger := 50, stress := 20, tone := 50, health := 5, money := 50 }
    { day := 1, hour := 0 } initialScheduleGS false none

/-- A part_002 state already frozen at game over (starvation). -/
def c4InputP2 : GameStateP2 :=
  mkStateP2 initialStats { day := 1, hour := 0 } initialScheduleP2 true
    "You starved to death. Game over!"

/-- A gameStore.ts state already frozen at game over (burnout). -/
def c4InputGS : GameStateGS :=
  mkStateGS initialStats { day := 1, hour := 0 } initialScheduleGS true
    (some "Burnout! Stress reached 100.")

/-- A running gameStore.ts state whose every slot holds an activity id
absent from the effect table. -/
def c6InputGS : GameStateGS :=
  mkStateGS initialStats { day := 1, hour := 0 }
    (List.replicate 24 (some "fly")) false none

/-- A running part_002 state whose every slot holds an activity id absent
from the effect table. -/
def c6InputP2 : GameStateP2 :=
  mkStateP2 initialStats { day := 1, hour := 0 }
    (List.replicate 24 (some "fly")) false ""

/-- A running gameStore.ts state at hour 23, about to wrap to a new day. -/
def c7InputGS : GameStateGS :=
  mkStateGS initialStats { day := 1, hour := 23 } initialScheduleGS false none

/-- A running part_002 state at hour 23, about to wrap to a new day. -/
def c7InputP2 : GameStateP2 :=
  mkStateP2 initialStats { day := 1, hour := 23 } initialScheduleP2 false ""

/-- A part_002 state frozen at game over with healthy stats, used to show
the applier clears the terminal flag. -/
def c10InputP2 : GameStateP2 :=
  mkStateP2 initialStats { day := 2, hour := 5 } initialScheduleP2 true
    "Your health reached zero. Game over!"

/-- A running gameStore.ts state whose every slot holds the empty string:
an activity id absent from the effect table that the idle fallback
nevertheless swallows. -/
def emptySlotStateGS : GameStateGS :=
  mkStateGS initialStats { day := 1, hour := 0 }
    (List.replicate 24 (some "")) false none

/-- A running part_002 state whose every slot holds the empty string. -/
def emptySlotStateP2 : GameStateP2 :=
  mkStateP2 initialStats { day := 1, hour := 0 }
    (List.replicate 24 (some "")) false ""

/-- The daily_schedule acceptance check of initializeGame in the second
gameStore.ts copy (the backend load): the fetched value is installed
verbatim whenever it is an array of length exactly 24 — slot shapes are
never inspected there (a JS array is always truthy, and the
backendHasNewerData timestamp comparison is independent of the value, so
it is not modelled). A rejected value leaves the previously set schedule
in place. -/
def acceptBackendScheduleGS (v : JVal) : Option (List JVal) :=
  match v with
  | JVal.jarr xs => if xs.length == 24 then some xs else none
  | _ => none

/-- The schedule chosen by initializeGame in the first gameStore.ts copy:
the fetched daily_schedule is used only when it is an array of 24 slots
each an object carrying an activityId key, otherwise the default-idle
schedule is kept. -/
def initializeGameScheduleGS1 (fetched : Option JVal) : List JVal :=
  match fetched with
  | some (JVal.jarr xs) =>
      if xs.length == 24 && xs.all isSlotShape then xs else initialScheduleJ
  | _ => initialScheduleJ

/-- A 24-element array whose slots are numbers, not objects of shape
activityId: wrong slot shape but the right length. -/
def malformedSlots24 : List JVal :=
  List.replicate 24 (JVal.jnum 7)

/-- Any value clamped to [0,100] lies in [0,100]. -/
lemma clamp_mem (v : Int) : 0 ≤ clamp v 0 100 ∧ clamp v 0 100 ≤ 100 :=
  ⟨le_max_left 0 _, max_le (by norm_num) (min_le_right v 100)⟩

/-- The part_002 stat arithmetic clamps every bounded stat. -/
lemma applyEffectsStatsP2_inRange (s : Stats) (e : ActivityEffect) :
    statsInRange (applyEffectsStatsP2 s e) :=
  ⟨(clamp_mem _).1, (clamp_mem _).2, (clamp_mem _).1, (clamp_mem _).2,
   (clamp_mem _).1, (clamp_mem _).2, (clamp_mem _).1, (clamp_mem _).2⟩

/-- The gameStore.ts stat arithmetic clamps every bounded stat. -/
lemma applyEffectsStatsGS_inRange (s : Stats) (e : ActivityEffect) :
    statsInRange (applyEffectsStatsGS s e) :=
  ⟨(clamp_mem _).1, (clamp_mem _).2, (clamp_mem _).1, (clamp_mem _).2,
   (clamp_mem _).1, (clamp_mem _).2, (clamp_mem _).1, (clamp_mem _).2⟩

/-- A known-activity application in the part_002 store lands in range from
any starting record. -/
lemma applyActivityStatsP2_inRange (s : Stats) (a : String)
    (h : (activityEffectsP2 a).isSome) : statsInRange (applyActivityStatsP2 s a) := by
  cases ha : activityEffectsP2 a with
  | none => rw [ha] at h; simp at h
  | some e =>
    have hrw : applyActivityStatsP2 s a = applyEffectsStatsP2 s e := by
      unfold applyActivityStatsP2
      rw [ha]
    rw [hrw]
    exact applyEffectsStatsP2_inRange s e

/-- After any nonempty sequence of known-activity applications the bounded
stats are in range, whatever the starting record. -/
lemma foldl_applyActivityStatsP2_inRange :
    ∀ (l : List String), ∀ (s : Stats), l ≠ [] →
      (∀ a ∈ l, (activityEffectsP2 a).isSome) →
      statsInRange (l.foldl applyActivityStatsP2 s) := by
  intro l
  induction l with
  | nil => intro s h _; exact absurd rfl h
  | cons a as ih =>
    intro s _ hk
    cases as with
    | nil =>
      simp only [List.foldl_cons, List.foldl_nil]
      exact applyActivityStatsP2_inRange s a (hk a (by simp))
    | cons b bs =>
      simp only [List.foldl_cons]
      exact ih (applyActivityStatsP2 s a) (by simp)
        (fun x hx => hk x (List.mem_cons_of_mem a hx))

/-- The per-field update of applyStatChanges keeps an in-range field in
range. -/
lemma applyOptClamped_bounds (old : Int) (o : Option Int)
    (h0 : 0 ≤ old) (h1 : old ≤ 100) :
    0 ≤ applyOptClamped old o ∧ applyOptClamped old o ≤ 100 := by
  cases o with
  | none => exact ⟨h0, h1⟩
  | some v => exact clamp_mem _

/-- Both branches of the gameStore.ts applier leave gameTime, the
schedule, the current activity id, and the audio settings alone. -/
lemma applyActivityEffectsGS_frame (st : GameStateGS) (aid : String) :
    (applyActivityEffectsGS st aid).1.gameTime = st.gameTime
    ∧ (applyActivityEffectsGS st aid).1.dailySchedule = st.dailySchedule
    ∧ (applyActivityEffectsGS st aid).1.currentActivityId = st.currentActivityId
    ∧ (applyActivityEffectsGS st aid).1.audioSettings = st.audioSettings := by
  cases h : activityEffectsGS aid with
  | none => simp [applyActivityEffectsGS, h]
  | some e =>
    simp only [applyActivityEffectsGS, h, applyEffectsGS]
    split_ifs with hs
    · cases hi : st.intervalId <;> simp [pauseGameLoopGS, hi]
    · simp

/-- Both branches of the part_002 applier leave gameTime, the schedule,
the audio settings, and the loop flags alone. -/
lemma applyActivityEffectsP2_frame (st : GameStateP2) (aid : String) :
    (applyActivityEffectsP2 st aid).1.gameTime = st.gameTime
    ∧ (applyActivityEffectsP2 st aid).1.dailySchedule = st.dailySchedule
    ∧ (applyActivityEffectsP2 st aid).1.audioSettings = st.audioSettings
    ∧ (applyActivityEffectsP2 st aid).1.isGameRunning = st.isGameRunning
    ∧ (applyActivityEffectsP2 st aid).1.isLoading = st.isLoading := by
  cases h : activityEffectsP2 aid <;> simp [applyActivityEffectsP2, h]

/-- The stats component of the gameStore.ts applier agrees with the
stats-only application. -/
lemma applyActivityEffectsGS_stats (st : GameStateGS) (aid : String) :
    (applyActivityEffectsGS st aid).1.stats = applyActivityStatsGS st.stats aid := by
  cases h : activityEffectsGS aid with
  | none => simp [applyActivityEffectsGS, applyActivityStatsGS, h]
  | some e =>
    simp only [applyActivityEffectsGS, h, applyEffectsGS, applyActivityStatsGS]
    split_ifs with hs <;> simp

/-- The stats component of the part_002 applier agrees with the
stats-only application. -/
lemma applyActivityEffectsP2_stats (st : GameStateP2) (aid : String) :
    (applyActivityEffectsP2 st aid).1.stats = applyActivityStatsP2 st.stats aid := by
  cases h : activityEffectsP2 aid <;>
    simp [applyActivityEffectsP2, applyActivityStatsP2, h]

/-- For an hour in [0,23] the shared time advance is day + 1 exactly at
the 23 to 0 wrap and hour (hour + 1) mod 24. -/
lemma nextGameTime_spec (t : GameTime) (h0 : 0 ≤ t.hour) (h1 : t.hour ≤ 23) :
    nextGameTime t =
      { day := if t.hour + 1 = 24 then t.day + 1 else t.day,
        hour := (t.hour + 1) % 24 } := by
  rcases t with ⟨d, h⟩
  simp only [nextGameTime] at *
  split_ifs with ha hb hb <;> simp_all [GameTime.mk.injEq] <;> omega

/-- When the slot does not hold the empty string, the idle fallback is
plain getD. -/
lemma resolveSlot_getD (o : Option String) (h : o ≠ some "") :
    resolveSlot o = o.getD "idle" := by
  cases o with
  | none => rfl
  | some a =>
    have ha : a ≠ "" := fun he => h (by rw [he])
    simp [resolveSlot, ha]

/-- C2: every stat update applied by a simulation step or direct stat
change leaves the four bounded stats in [0,100]; after every step of any
nonempty sequence of known-activity applications, starting from any
stats record, the bounded stats are in [0,100]; and the direct
stat-change applier keeps in-range records in range in both variants. -/
theorem c2_stats_bounded :
    (∀ (s : Stats) (e : ActivityEffect),
       statsInRange (applyEffectsStatsP2 s e) ∧ statsInRange (applyEffectsStatsGS s e))
  ∧ (∀ (s : Stats) (l : List String), l ≠ [] →
       (∀ a ∈ l, (activityEffectsP2 a).isSome) →
       statsInRange (l.foldl applyActivityStatsP2 s))
  ∧ (∀ (s : Stats) (c : ActivityEffect), statsInRange s →
       statsInRange (applyStatChangesStatsP2 s c)
       ∧ statsInRange (applyStatChangesStatsGS s c)) := by
  refine ⟨fun s e => ⟨applyEffectsStatsP2_inRange s e, applyEffectsStatsGS_inRange s e⟩,
          fun s l h1 h2 => foldl_applyActivityStatsP2_inRange l s h1 h2, ?_⟩
  intro s c hs
  obtain ⟨h1, h2, h3, h4, h5, h6, h7, h8⟩ := hs
  constructor
  · exact ⟨(applyOptClamped_bounds _ _ h1 h2).1, (applyOptClamped_bounds _ _ h1 h2).2,
           (applyOptClamped_bounds _ _ h3 h4).1, (applyOptClamped_bounds _ _ h3 h4).2,
           (applyOptClamped_bounds _ _ h5 h6).1, (applyOptClamped_bounds _ _ h5 h6).2,
           (applyOptClamped_bounds _ _ h7 h8).1, (applyOptClamped_bounds _ _ h7 h8).2⟩
  · exact ⟨(applyOptClamped_bounds _ _ h1 h2).1, (applyOptClamped_bounds _ _ h1 h2).2,
           (applyOptClamped_bounds _ _ h3 h4).1, (applyOptClamped_bounds _ _ h3 h4).2,
           (applyOptClamped_bounds _ _ h5 h6).1, (applyOptClamped_bounds _ _ h5 h6).2,
           (applyOptClamped_bounds _ _ h7 h8).1, (applyOptClamped_bounds _ _ h7 h8).2⟩

/-- Witness for c2_stats_bounded at concrete inputs: a two-step activity
sequence starting from an out-of-range record, and one direct change on
the initial record. -/
theorem c2_stats_bounded_witness :
    statsInRange (["work", "sleep"].foldl applyActivityStatsP2
      { hunger := 200, stress := -7, tone := 50, health := 300, money := 10 })
    ∧ statsInRange (applyStatChangesStatsP2 initialStats { stress := some 500 }) :=
  ⟨c2_stats_bounded.2.1 _ ["work", "sleep"] (by decide) (by decide),
   (c2_stats_bounded.2.2 initialStats { stress := some 500 } (by decide)).1⟩

/-- C3: the claim says money is floored at 0 in both appliers of both
variants, and the spec declares flooring the correct contract; the
gameStore.ts appliers never floor: from money 0, an effect of money -15
leaves -15 there, while the part_002 appliers return 0. -/
theorem c3_money_floor_bug :
    (applyActivityStatsGS { hunger := 70, stress := 20, tone := 80, health := 90, money := 0 }
      "eat_healthy").money = -15
  ∧ (applyActivityStatsP2 { hunger := 70, stress := 20, tone := 80, health := 90, money := 0 }
      "eat_healthy").money = 0
  ∧ (applyStatChangesStatsGS { hunger := 70, stress := 20, tone := 80, health := 90, money := 0 }
      { money := some (-15) }).money = -15
  ∧ (applyStatChangesStatsP2 { hunger := 70, stress := 20, tone := 80, health := 90, money := 0 }
      { money := some (-15) }).money = 0 := by decide

/-- C5 counterexample: the gameStore.ts effect table does not contain the
water_flower key the claim requires, though the canonical table of the
spec defines it. -/
theorem c5_table_counterexample :
    activityEffectsGS "water_flower" = none
  ∧ specEffectTable "water_flower" =
      some { hunger := 0, stress := -5, tone := 0, health := 1, money := 0 } := by decide

/-- C5 amended: the part_002 (and part_003) effect table equals the
canonical table of the spec exactly on all eleven ids, absent keys
meaning zero; the gameStore.ts table equals it on the other ten ids but
omits water_flower. -/
theorem c5_table_amended :
    (∀ a ∈ canonicalActivityIds,
       (activityEffectsP2 a).map effectDelta = specEffectTable a)
  ∧ (∀ a ∈ canonicalActivityIds, a ≠ "water_flower" →
       (activityEffectsGS a).map effectDelta = specEffectTable a)
  ∧ activityEffectsGS "water_flower" = none := by decide

/-- Witness for c5_table_amended at two concrete ids. -/
theorem c5_table_amended_witness :
    (activityEffectsP2 "water_flower").map effectDelta = specEffectTable "water_flower"
  ∧ (activityEffectsGS "idle").map effectDelta = specEffectTable "idle" :=
  ⟨c5_table_amended.1 "water_flower" (by decide),
   c5_table_amended.2.1 "idle" (by decide) (by decide)⟩

/-- C8: assigning an activity to an in-range hour through handleDragEnd
sets the component schedule state to the timeout-cleanup closure, not to
a 24-slot array: the functional update returns the closure and the
return of newSchedule after it is unreachable, though that intended
value would have kept length 24. -/
theorem c8_schedule_length_bug :
    handleDragEndUpdate 5 "work" tsInitialSchedule = SchedUpdateResult.cleanupFn
  ∧ (handleDragEndIntended 5 "work" tsInitialSchedule).length = 24
  ∧ SchedUpdateResult.cleanupFn ≠
      SchedUpdateResult.sched (handleDragEndIntended 5 "work" tsInitialSchedule) := by decide

/-- C1 counterexample: the policy the claim describes (health, then
hunger, then stress, reporting the first trigger) does not govern the
code. In the part_002 store a work hour that raises stress to exactly
100 yields no game over although the claimed policy reports burnout; in
gameStore.ts a fast-food order that clamps health to 0 yields no game
over although the claimed policy reports health reached zero. -/
theorem c1_policy_counterexample :
    (specGameOverPolicy ((applyActivityEffectsP2 c1InputP2 "work").1.stats) = some "burnout"
     ∧ ((applyActivityEffectsP2 c1InputP2 "work").1.stats.stress = 100)
     ∧ (applyActivityEffectsP2 c1InputP2 "work").1.isGameOver = false)
  ∧ (specGameOverPolicy ((applyActivityEffectsGS c1InputGS "eat_fast").1.stats)
        = some "health reached zero"
     ∧ ((applyActivityEffectsGS c1InputGS "eat_fast").1.stats.health = 0)
     ∧ (applyActivityEffectsGS c1InputGS "eat_fast").1.isGameOver = false) := by decide

/-- C1 amended: each variant evaluates its own deterministic subset of
the triggers in fixed order. The part_002 policy fires on health at or
below 0 with its health reason, else on hunger at or below 0 with its
starvation reason, and never on stress; the gameStore.ts applier fires
exactly when the new stress reaches 100, setting the burnout reason, and
otherwise leaves the game-over flag and reason untouched. -/
theorem c1_policy_amended :
    (∀ s : Stats,
       (gameOverP2 s = (true, "Your health reached zero. Game over!") ↔ s.health ≤ 0)
     ∧ (gameOverP2 s = (true, "You starved to death. Game over!") ↔
          (0 < s.health ∧ s.hunger ≤ 0))
     ∧ (gameOverP2 s = (false, "") ↔ (0 < s.health ∧ 0 < s.hunger)))
  ∧ (∀ (st : GameStateGS) (e : ActivityEffect),
       ((applyEffectsGS st e).isGameOver = true ↔
          (100 ≤ (applyEffectsStatsGS st.stats e).stress ∨ st.isGameOver = true))
     ∧ (100 ≤ (applyEffectsStatsGS st.stats e).stress →
          (applyEffectsGS st e).gameOverReason = some "Burnout! Stress reached 100.")
     ∧ (¬ 100 ≤ (applyEffectsStatsGS st.stats e).stress →
          (applyEffectsGS st e).isGameOver = st.isGameOver
          ∧ (applyEffectsGS st e).gameOverReason = st.gameOverReason)) := by
  constructor
  · intro s
    unfold gameOverP2
    refine ⟨?_, ?_, ?_⟩ <;> split_ifs <;> simp_all
  · intro st e
    simp only [applyEffectsGS]
    split_ifs with hs
    · refine ⟨?_, fun _ => rfl, fun hc => absurd hs hc⟩
      simp [hs]
    · refine ⟨?_, fun hc => absurd hc hs, fun _ => ⟨rfl, rfl⟩⟩
      simp [hs]

/-- C4: the claim says a step on a game-over state is a no-op, and the
spec insists the terminal state is frozen; but neither step guards on
the flag. On a frozen part_002 state advanceTime advances the hour,
mutates the stats with the idle effect, and even clears the terminal
flag back to false; the gameStore.ts tick likewise advances time and
mutates stats on a frozen state. -/
theorem c4_tick_after_terminal :
    ((advanceTimeP2 c4InputP2).1.gameTime = { day := 1, hour := 1 }
     ∧ (advanceTimeP2 c4InputP2).1.stats =
         { hunger := 68, stress := 21, tone := 79, health := 90, money := 50 }
     ∧ (advanceTimeP2 c4InputP2).1.isGameOver = false
     ∧ c4InputP2.isGameOver = true)
  ∧ ((tickGS c4InputGS).1.gameTime = { day := 1, hour := 1 }
     ∧ (tickGS c4InputGS).1.stats =
         { hunger := 68, stress := 21, tone := 79, health := 90, money := 50 }
     ∧ c4InputGS.isGameOver = true) := by decide

/-- C10 counterexample: applying a known activity to a part_002 state
whose game-over flag is set modifies that flag even though the policy
does not fire on the new stats (which stay clear of every trigger), so
the applier does not modify the flag only when the policy fires. -/
theorem c10_frame_counterexample :
    (applyActivityEffectsP2 c10InputP2 "work").1.isGameOver = false
  ∧ c10InputP2.isGameOver = true
  ∧ specGameOverPolicy ((applyActivityEffectsP2 c10InputP2 "work").1.stats) = none := by decide

/-- C6 counterexample: the empty string is an activity id absent from
both effect tables, yet with every slot holding it the step emits no
warning, applies the nonzero idle effect (the stats change), and
advances time — the idle fallback swallows it before the unknown-id
branch can fire, so the claimed zero-effect-plus-warning behaviour
fails at this input. -/
theorem c6_unknown_counterexample :
    (activityEffectsGS "" = none
     ∧ (tickGS emptySlotStateGS).2 = false
     ∧ (tickGS emptySlotStateGS).1.stats ≠ emptySlotStateGS.stats
     ∧ (tickGS emptySlotStateGS).1.gameTime = nextGameTime emptySlotStateGS.gameTime)
  ∧ (activityEffectsP2 "" = none
     ∧ (advanceTimeP2 emptySlotStateP2).2 = false
     ∧ (advanceTimeP2 emptySlotStateP2).1.stats ≠ emptySlotStateP2.stats) := by decide

/-- C6 amended: when the slot for the entered hour holds a nonempty
activity id absent from the effect table, the step leaves the stats
unchanged, emits the unknown-activity warning, and still advances time
by exactly one hour, in both variants; but a slot holding the empty
string — also absent from the table — is silently substituted by idle,
whose effect is applied with no warning, time still advancing. -/
theorem c6_unknown_activity :
    (∀ (st : GameStateGS) (aid : String),
       slotAt st.dailySchedule (nextGameTime st.gameTime).hour = some aid →
       activityEffectsGS aid = none → aid ≠ "" →
       (tickGS st).1.stats = st.stats ∧ (tickGS st).2 = true
       ∧ (tickGS st).1.gameTime = nextGameTime st.gameTime)
  ∧ (∀ (st : GameStateP2) (aid : String),
       slotAt st.dailySchedule (nextGameTime st.gameTime).hour = some aid →
       activityEffectsP2 aid = none → aid ≠ "" →
       (advanceTimeP2 st).1.stats = st.stats ∧ (advanceTimeP2 st).2 = true
       ∧ (advanceTimeP2 st).1.gameTime = nextGameTime st.gameTime)
  ∧ (∀ st : GameStateGS,
       slotAt st.dailySchedule (nextGameTime st.gameTime).hour = some "" →
       (tickGS st).1.stats = applyActivityStatsGS st.stats "idle"
       ∧ (tickGS st).2 = false
       ∧ (tickGS st).1.gameTime = nextGameTime st.gameTime)
  ∧ (∀ st : GameStateP2,
       slotAt st.dailySchedule (nextGameTime st.gameTime).hour = some "" →
       (advanceTimeP2 st).1.stats = applyActivityStatsP2 st.stats "idle"
       ∧ (advanceTimeP2 st).2 = false
       ∧ (advanceTimeP2 st).1.gameTime = nextGameTime st.gameTime) := by
  refine ⟨?_, ?_, ?_, ?_⟩
  · intro st aid hslot hnone hne
    simp only [tickGS, hslot, resolveSlot, if_neg hne, applyActivityEffectsGS, hnone]
    refine ⟨?_, ?_, ?_⟩ <;> trivial
  · intro st aid hslot hnone hne
    simp only [advanceTimeP2, hslot, resolveSlot, if_neg hne, applyActivityEffectsP2, hnone]
    refine ⟨?_, ?_, ?_⟩ <;> trivial
  · intro st hslot
    have h1 : resolveSlot (slotAt st.dailySchedule (nextGameTime st.gameTime).hour) = "idle" := by
      rw [hslot]
      rfl
    refine ⟨?_, ?_, rfl⟩
    · have hstats : (tickGS st).1.stats = applyActivityStatsGS st.stats
          (resolveSlot (slotAt st.dailySchedule (nextGameTime st.gameTime).hour)) :=
        applyActivityEffectsGS_stats st _
      rw [hstats, h1]
    · have hw : (tickGS st).2 = (applyActivityEffectsGS st
          (resolveSlot (slotAt st.dailySchedule (nextGameTime st.gameTime).hour))).2 := rfl
      rw [hw, h1]
      rfl
  · intro st hslot
    have h1 : resolveSlot (slotAt st.dailySchedule (nextGameTime st.gameTime).hour) = "idle" := by
      rw [hslot]
      rfl
    refine ⟨?_, ?_, ?_⟩
    · have hstats : (advanceTimeP2 st).1.stats = applyActivityStatsP2 st.stats
          (resolveSlot (slotAt st.dailySchedule (nextGameTime st.gameTime).hour)) :=
        applyActivityEffectsP2_stats { st with gameTime := nextGameTime st.gameTime } _
      rw [hstats, h1]
    · have hw : (advanceTimeP2 st).2 =
          (applyActivityEffectsP2 { st with gameTime := nextGameTime st.gameTime }
            (resolveSlot (slotAt st.dailySchedule (nextGameTime st.gameTime).hour))).2 := rfl
      rw [hw, h1]
      rfl
    · exact (applyActivityEffectsP2_frame
        { st with gameTime := nextGameTime st.gameTime } _).1

/-- Witness for c6_unknown_activity: a schedule full of the unknown id
fly in each variant, and a schedule full of empty strings for the
idle-substitution clause. -/
theorem c6_unknown_activity_witness :
    ((tickGS c6InputGS).1.stats = c6InputGS.stats ∧ (tickGS c6InputGS).2 = true
     ∧ (tickGS c6InputGS).1.gameTime = nextGameTime c6InputGS.gameTime)
  ∧ ((advanceTimeP2 c6InputP2).1.stats = c6InputP2.stats ∧ (advanceTimeP2 c6InputP2).2 = true
     ∧ (advanceTimeP2 c6InputP2).1.gameTime = nextGameTime c6InputP2.gameTime)
  ∧ ((tickGS emptySlotStateGS).1.stats = applyActivityStatsGS emptySlotStateGS.stats "idle"
     ∧ (tickGS emptySlotStateGS).2 = false
     ∧ (tickGS emptySlotStateGS).1.gameTime = nextGameTime emptySlotStateGS.gameTime)
  ∧ ((advanceTimeP2 emptySlotStateP2).1.stats =
       applyActivityStatsP2 emptySlotStateP2.stats "idle"
     ∧ (advanceTimeP2 emptySlotStateP2).2 = false
     ∧ (advanceTimeP2 emptySlotStateP2).1.gameTime =
         nextGameTime emptySlotStateP2.gameTime) :=
  ⟨c6_unknown_activity.1 c6InputGS "fly" (by decide) (by decide) (by decide),
   c6_unknown_activity.2.1 c6InputP2 "fly" (by decide) (by decide) (by decide),
   c6_unknown_activity.2.2.1 emptySlotStateGS (by decide),
   c6_unknown_activity.2.2.2 emptySlotStateP2 (by decide)⟩

/-- C7 counterexample: the claim reads the applied activity off the slot
itself, substituting idle only for a null or missing slot; at a present
slot holding the empty string the activity found is the empty string —
an id with no table entry, hence zero effect under the unknown-id
convention — yet the step applies the idle effect instead and even
reports idle as the current activity, so the claim fails there. -/
theorem c7_step_counterexample :
    slotAt emptySlotStateGS.dailySchedule
      ((emptySlotStateGS.gameTime.hour + 1) % 24) = some ""
  ∧ (slotAt emptySlotStateGS.dailySchedule
      ((emptySlotStateGS.gameTime.hour + 1) % 24)).getD "idle" = ""
  ∧ (tickGS emptySlotStateGS).1.stats ≠
      applyActivityStatsGS emptySlotStateGS.stats ""
  ∧ (tickGS emptySlotStateGS).1.stats =
      applyActivityStatsGS emptySlotStateGS.stats "idle"
  ∧ (tickGS emptySlotStateGS).1.currentActivityId = "idle"
  ∧ (advanceTimeP2 emptySlotStateP2).1.stats ≠
      applyActivityStatsP2 emptySlotStateP2.stats ""
  ∧ (advanceTimeP2 emptySlotStateP2).1.stats =
      applyActivityStatsP2 emptySlotStateP2.stats "idle" := by decide

/-- C7 amended: from any running state with hour in [0,23] and day at
least 1, one step moves the clock to hour (hour + 1) mod 24, increments
the day exactly when hour + 1 equals 24, and applies the effect of the
activity found in the slot of the entered hour, substituting idle when
that slot is null, missing, or holds the empty string (resolveSlot), in
both variants. -/
theorem c7_step_semantics :
    (∀ st : GameStateGS, 0 ≤ st.gameTime.hour → st.gameTime.hour ≤ 23 →
       1 ≤ st.gameTime.day →
       (tickGS st).1.gameTime.hour = (st.gameTime.hour + 1) % 24
       ∧ (tickGS st).1.gameTime.day =
           (if st.gameTime.hour + 1 = 24 then st.gameTime.day + 1 else st.gameTime.day)
       ∧ (tickGS st).1.stats = applyActivityStatsGS st.stats
           (resolveSlot (slotAt st.dailySchedule ((st.gameTime.hour + 1) % 24)))
       ∧ (tickGS st).1.currentActivityId =
           resolveSlot (slotAt st.dailySchedule ((st.gameTime.hour + 1) % 24)))
  ∧ (∀ st : GameStateP2, 0 ≤ st.gameTime.hour → st.gameTime.hour ≤ 23 →
       1 ≤ st.gameTime.day →
       (advanceTimeP2 st).1.gameTime.hour = (st.gameTime.hour + 1) % 24
       ∧ (advanceTimeP2 st).1.gameTime.day =
           (if st.gameTime.hour + 1 = 24 then st.gameTime.day + 1 else st.gameTime.day)
       ∧ (advanceTimeP2 st).1.stats = applyActivityStatsP2 st.stats
           (resolveSlot (slotAt st.dailySchedule ((st.gameTime.hour + 1) % 24)))) := by
  constructor
  · intro st h0 h1 _
    have ht := nextGameTime_spec st.gameTime h0 h1
    have hhour : (nextGameTime st.gameTime).hour = (st.gameTime.hour + 1) % 24 := by
      rw [ht]
    have hgt : (tickGS st).1.gameTime = nextGameTime st.gameTime := rfl
    have hcur : (tickGS st).1.currentActivityId =
        resolveSlot (slotAt st.dailySchedule (nextGameTime st.gameTime).hour) := rfl
    have hstats : (tickGS st).1.stats = applyActivityStatsGS st.stats
        (resolveSlot (slotAt st.dailySchedule (nextGameTime st.gameTime).hour)) :=
      applyActivityEffectsGS_stats st _
    refine ⟨?_, ?_, ?_, ?_⟩
    · rw [hgt, hhour]
    · rw [hgt, ht]
    · rw [hstats, hhour]
    · rw [hcur, hhour]
  · intro st h0 h1 _
    have ht := nextGameTime_spec st.gameTime h0 h1
    have hhour : (nextGameTime st.gameTime).hour = (st.gameTime.hour + 1) % 24 := by
      rw [ht]
    have hgt : (advanceTimeP2 st).1.gameTime = nextGameTime st.gameTime :=
      (applyActivityEffectsP2_frame { st with gameTime := nextGameTime st.gameTime } _).1
    have hstats : (advanceTimeP2 st).1.stats = applyActivityStatsP2 st.stats
        (resolveSlot (slotAt st.dailySchedule (nextGameTime st.gameTime).hour)) :=
      applyActivityEffectsP2_stats { st with gameTime := nextGameTime st.gameTime } _
    refine ⟨?_, ?_, ?_⟩
    · rw [hgt, hhour]
    · rw [hgt, ht]
    · rw [hstats, hhour]

/-- Witness for c7_step_semantics at hour 23 of day 1 in both variants,
exercising the wrap to hour 0 of day 2. -/
theorem c7_step_semantics_witness :
    ((tickGS c7InputGS).1.gameTime.hour = (c7InputGS.gameTime.hour + 1) % 24
     ∧ (tickGS c7InputGS).1.gameTime.day =
         (if c7InputGS.gameTime.hour + 1 = 24 then c7InputGS.gameTime.day + 1
          else c7InputGS.gameTime.day)
     ∧ (tickGS c7InputGS).1.stats = applyActivityStatsGS c7InputGS.stats
         (resolveSlot (slotAt c7InputGS.dailySchedule ((c7InputGS.gameTime.hour + 1) % 24)))
     ∧ (tickGS c7InputGS).1.currentActivityId =
         resolveSlot (slotAt c7InputGS.dailySchedule ((c7InputGS.gameTime.hour + 1) % 24)))
  ∧ ((advanceTimeP2 c7InputP2).1.gameTime.hour = (c7InputP2.gameTime.hour + 1) % 24
     ∧ (advanceTimeP2 c7InputP2).1.gameTime.day =
         (if c7InputP2.gameTime.hour + 1 = 24 then c7InputP2.gameTime.day + 1
          else c7InputP2.gameTime.day)
     ∧ (advanceTimeP2 c7InputP2).1.stats = applyActivityStatsP2 c7InputP2.stats
         (resolveSlot (slotAt c7InputP2.dailySchedule ((c7InputP2.gameTime.hour + 1) % 24)))) :=
  ⟨c7_step_semantics.1 c7InputGS (by decide) (by decide) (by decide),
   c7_step_semantics.2 c7InputP2 (by decide) (by decide) (by decide)⟩

/-- C9 counterexample: two of the cited loaders violate the claim. The
part_002 loader performs no validation, so a persisted empty array —
malformed, length 0 — is installed verbatim instead of the 24-slot
default; and the backend path of initializeGame in the second
gameStore.ts copy checks only array-ness and length, so a 24-element
array of number slots — malformed slot shape — is accepted and installed
verbatim rather than replaced by the default-idle schedule. -/
theorem c9_load_counterexample :
    (scheduleFromStorageP2 (some (JVal.jarr [])) = JVal.jarr []
     ∧ validScheduleShape (JVal.jarr []) = false
     ∧ scheduleFromStorageP2 (some (JVal.jarr [])) ≠ defaultScheduleJP2)
  ∧ (acceptBackendScheduleGS (JVal.jarr malformedSlots24) = some malformedSlots24
     ∧ validScheduleShape (JVal.jarr malformedSlots24) = false
     ∧ malformedSlots24 ≠ initialScheduleJ) := by
  refine ⟨⟨rfl, rfl, ?_⟩, rfl, rfl, ?_⟩
  · intro h
    rw [show scheduleFromStorageP2 (some (JVal.jarr [])) = JVal.jarr [] from rfl] at h
    unfold defaultScheduleJP2 at h
    injection h with h2
    have hlen := congrArg List.length h2
    simp at hlen
  · intro h
    have h2 : malformedSlots24.all isSlotShape = initialScheduleJ.all isSlotShape := by
      rw [h]
    exact absurd h2 (by decide)

/-- C9 amended: loading never fails fatally, and the two fully
validating gameStore.ts paths satisfy the claim — the localStorage
loader and the first-copy initializeGame fetch discard any value failing
the shape validation (array of 24 slots each an object with an
activityId key) in favour of the 24-slot default-idle schedule, an
absent or unparseable value likewise yielding the default; but the
second-copy initializeGame backend path installs verbatim any array of
length 24 without inspecting slot shapes, and the part_002 loader
installs any truthy parsed value with no validation at all. -/
theorem c9_load_amended :
    (∀ v : JVal, validScheduleShape v = false →
       scheduleFromStorageGS (some v) = initialScheduleJ)
  ∧ scheduleFromStorageGS none = initialScheduleJ
  ∧ (∀ v : JVal, validScheduleShape v = false →
       initializeGameScheduleGS1 (some v) = initialScheduleJ)
  ∧ initializeGameScheduleGS1 none = initialScheduleJ
  ∧ (∀ xs : List JVal, xs.length = 24 →
       acceptBackendScheduleGS (JVal.jarr xs) = some xs) := by
  refine ⟨?_, rfl, ?_, rfl, ?_⟩
  · intro v hv
    cases v <;>
      simp_all [scheduleFromStorageGS, loadScheduleFromLocalStorageGS, validScheduleShape]
    split_ifs with hcond
    · obtain ⟨hlen, hall⟩ := hcond
      obtain ⟨x, hx, hbad⟩ := hv hlen
      rw [hall x hx] at hbad
      cases hbad
    · rfl
  · intro v hv
    match v with
    | JVal.jnull | JVal.jbool _ | JVal.jnum _ | JVal.jstr _ | JVal.jobj _ => rfl
    | JVal.jarr xs =>
      have hc : (xs.length == 24 && xs.all isSlotShape) = false := hv
      simp [initializeGameScheduleGS1, hc]
  · intro xs hlen
    simp [acceptBackendScheduleGS, hlen]

/-- Witness for c9_load_amended: a stored string is malformed and both
validating paths substitute the default-idle schedule, while the
backend path accepts the 24-element array of malformed number slots. -/
theorem c9_load_amended_witness :
    scheduleFromStorageGS (some (JVal.jstr "oops")) = initialScheduleJ
  ∧ initializeGameScheduleGS1 (some (JVal.jstr "oops")) = initialScheduleJ
  ∧ acceptBackendScheduleGS (JVal.jarr malformedSlots24) = some malformedSlots24 :=
  ⟨c9_load_amended.1 (JVal.jstr "oops") rfl,
   c9_load_amended.2.2.1 (JVal.jstr "oops") rfl,
   c9_load_amended.2.2.2.2 malformedSlots24 (by decide)⟩

/-- C10 amended: activity application touches only the stats record and
the game-over fields — gameTime, the schedule, the audio settings, the
loop flags (and in gameStore.ts the current activity id) are unchanged —
but the part_002 applier recomputes the game-over flag and reason on
every known-activity application, resetting them to false and the empty
string whenever the policy does not fire, rather than modifying them
only when it fires. -/
theorem c10_frame :
    (∀ (st : GameStateP2) (aid : String),
       (applyActivityEffectsP2 st aid).1.gameTime = st.gameTime
       ∧ (applyActivityEffectsP2 st aid).1.dailySchedule = st.dailySchedule
       ∧ (applyActivityEffectsP2 st aid).1.audioSettings = st.audioSettings
       ∧ (applyActivityEffectsP2 st aid).1.isGameRunning = st.isGameRunning
       ∧ (applyActivityEffectsP2 st aid).1.isLoading = st.isLoading)
  ∧ (∀ (st : GameStateGS) (aid : String),
       (applyActivityEffectsGS st aid).1.gameTime = st.gameTime
       ∧ (applyActivityEffectsGS st aid).1.dailySchedule = st.dailySchedule
       ∧ (applyActivityEffectsGS st aid).1.currentActivityId = st.currentActivityId
       ∧ (applyActivityEffectsGS st aid).1.audioSettings = st.audioSettings)
  ∧ (∀ (st : GameStateP2) (aid : String) (e : ActivityEffect),
       activityEffectsP2 aid = some e →
       (applyActivityEffectsP2 st aid).1.isGameOver =
         (gameOverP2 (applyEffectsStatsP2 st.stats e)).1
       ∧ (applyActivityEffectsP2 st aid).1.gameOverReason =
         (gameOverP2 (applyEffectsStatsP2 st.stats e)).2) := by
  refine ⟨fun st aid => applyActivityEffectsP2_frame st aid,
          fun st aid => applyActivityEffectsGS_frame st aid,
          fun st aid e he => ?_⟩
  simp [applyActivityEffectsP2, he]

/-- Witness for c10_frame: the flag and reason after a sleep hour are
exactly the recomputed policy values. -/
theorem c10_frame_witness :
    (applyActivityEffectsP2 c4InputP2 "sleep").1.isGameOver =
      (gameOverP2 (applyEffectsStatsP2 c4InputP2.stats
        { stress := some (-8), tone := some 10, health := some 2 })).1
    ∧ (applyActivityEffectsP2 c4InputP2 "sleep").1.gameOverReason =
      (gameOverP2 (applyEffectsStatsP2 c4InputP2.stats
        { stress := some (-8), tone := some 10, health := some 2 })).2 :=
  c10_frame.2.2 c4InputP2 "sleep" _ rfl

/-- Witness for c1_policy_amended: the health trigger fires at health 0
in the part_002 policy, and a direct 80-stress effect on the gameStore
state sets the burnout reason. -/
theorem c1_policy_amended_witness :
    gameOverP2 { hunger := 50, stress := 20, tone := 50, health := 0, money := 0 } =
      (true, "Your health reached zero. Game over!")
  ∧ (applyEffectsGS c1InputGS { stress := some 80 }).gameOverReason =
      some "Burnout! Stress reached 100." :=
  ⟨((c1_policy_amended.1 _).1).mpr (by decide),
   (c1_policy_amended.2 c1InputGS { stress := some 80 }).2.1 (by decide)⟩
